import Mathlib

/-!
Verification of the face-embedding pipeline of `face_detection_lite/face_embeddings.rs`.

The Rust source is shallowly embedded: `Mat` (an OpenCV image matrix) becomes a
record of dimensions plus a pixel function, pixel bytes become naturals,
floating-point coordinates become rationals (with truncation toward zero
modelling the Rust `as i32` cast), and fallible calls become an explicit
result type `Res` that distinguishes typed errors from panics, so that the
`.unwrap()` calls in the source are visible as distinct panic sites.
-/

namespace RsFaceDetection

/-- Typed error values surfaced through `anyhow::Error` by the pipeline.
`InvalidRegion` and `UnsupportedShape` are the error kinds named by the
specification for cropping and preprocessing failures. -/
inductive Err where
  | ModelLoadError
  | BuilderError
  | AllocationError
  | TensorDataMutError
  | InferenceError
  | MissingOutputInfo
  | UnsupportedShape
  | InvalidRegion
  | ShapeError
  deriving DecidableEq

/-- The distinct places in the source where an `unwrap` or a slice index can
abort the process instead of returning an error value. -/
inductive PanicSite where
  | matRoiUnwrap
  | indexInputs
  | copyFromSlice
  | indexOutputs
  | tensorDataUnwrap
  | indexDims
  deriving DecidableEq

/-- Outcome of running a fallible Rust function: a value, a returned typed
error, or a panic at a recorded site. -/
inductive Res (α : Type) where
  | ok : α → Res α
  | err : Err → Res α
  | panicked : PanicSite → Res α

/-- An OpenCV `Mat` holding an 8-bit 3-channel image: `rows` by `cols`
pixels, each pixel a triple of byte values indexed by channel. Byte values
are modelled as naturals; in-range inputs satisfy `data i j c ≤ 255`. -/
structure Mat where
  rows : ℕ
  cols : ℕ
  data : ℕ → ℕ → Fin 3 → ℕ

/-- The bounding box from `types.rs`: four scalar pixel coordinates, as in
the specification data model. Source coordinates are `f64`; they are
embedded as rationals. -/
structure BBox where
  xmin : ℚ
  ymin : ℚ
  xmax : ℚ
  ymax : ℚ

/-- `opencv::core::Rect` with `i32` fields. -/
structure CvRect where
  x : ℤ
  y : ℤ
  width : ℤ
  height : ℤ

/-- Rust `as i32` on an in-range `f64`: rounding toward zero. -/
def truncQ (q : ℚ) : ℤ := if 0 ≤ q then ⌊q⌋ else ⌈q⌉

/-- `Mat::roi`: returns the submatrix view when the rectangle passes the
OpenCV range check `0 ≤ x ∧ 0 ≤ width ∧ x + width ≤ cols` (and likewise for
rows), and an error (here `none`) otherwise. A zero-sized rectangle passes
the check and yields an empty matrix. -/
def Mat.roi (m : Mat) (r : CvRect) : Option Mat :=
  if 0 ≤ r.x ∧ 0 ≤ r.width ∧ r.x + r.width ≤ (m.cols : ℤ) ∧
     0 ≤ r.y ∧ 0 ≤ r.height ∧ r.y + r.height ≤ (m.rows : ℤ) then
    some { rows := r.height.toNat
           cols := r.width.toNat
           data := fun i j c => m.data (r.y.toNat + i) (r.x.toNat + j) c }
  else
    none

/-- `crop_image_to_bbox` from the source: builds the rectangle
`(x = xmin as i32, y = ymin as i32, width = (xmax - xmin) as i32,
height = (ymax - ymin) as i32)`, takes `Mat::roi` of it, `unwrap`s the
result (a panic when the rectangle fails the range check), and clones the
pointee (modelled as returning the same dimensions and pixel data). -/
def crop_image_to_bbox (image : Mat) (rect : BBox) : Res Mat :=
  match image.roi
      { x := truncQ rect.xmin
        y := truncQ rect.ymin
        width := truncQ (rect.xmax - rect.xmin)
        height := truncQ (rect.ymax - rect.ymin) } with
  | some cropped_image => Res.ok cropped_image
  | none => Res.panicked PanicSite.matRoiUnwrap

/-- `IMG_SIZE` from the source (an `i32` constant, value 112). -/
def IMG_SIZE : ℕ := 112

/-- The `ImageTensor` produced by preprocessing: a 3-D numeric array of
shape `(height, width, channels)` whose entries are reals represented here
as rationals. -/
structure ImageTensor where
  height : ℕ
  width : ℕ
  channels : ℕ
  tensor_data : ℕ → ℕ → ℕ → ℚ

/-- Clamp an integer index into `[0, n - 1]` (edge replication at the
image border during interpolation). -/
def clampIdx (n : ℕ) (i : ℤ) : ℕ := (max 0 (min i ((n : ℤ) - 1))).toNat

/-- Source coordinate sampled for output index `i` when resizing a length
`srcN` axis to length `dstN`: `(i + 1/2) * (srcN / dstN) - 1/2`, the
standard alignment used by bilinear image resizing. -/
def srcCoord (srcN dstN : ℕ) (i : ℕ) : ℚ :=
  ((i : ℚ) + 1 / 2) * ((srcN : ℚ) / (dstN : ℚ)) - 1 / 2

/-- Modelled from the spec: bilinear interpolation of one channel of an
image at fractional source coordinates, a weighted mean of the four
neighbouring pixels with weights given by the fractional parts. The
specification fixes bilinear interpolation as the deterministic resampling
method of the tensor preprocessor, whose implementation
(`transform.rs::image_to_tensor`) is outside the provided sources. -/
def bilinearSample (m : Mat) (c : Fin 3) (sy sx : ℚ) : ℚ :=
  let y0 : ℤ := ⌊sy⌋
  let x0 : ℤ := ⌊sx⌋
  let fy : ℚ := Int.fract sy
  let fx : ℚ := Int.fract sx
  let p00 : ℚ := m.data (clampIdx m.rows y0) (clampIdx m.cols x0) c
  let p01 : ℚ := m.data (clampIdx m.rows y0) (clampIdx m.cols (x0 + 1)) c
  let p10 : ℚ := m.data (clampIdx m.rows (y0 + 1)) (clampIdx m.cols x0) c
  let p11 : ℚ := m.data (clampIdx m.rows (y0 + 1)) (clampIdx m.cols (x0 + 1)) c
  (1 - fy) * ((1 - fx) * p00 + fx * p01) + fy * ((1 - fx) * p10 + fx * p11)

/-- Modelled from the spec: the tensor built by the preprocessor. The
image is resized to `outputSize = (width, height)` by bilinear
interpolation and each byte value is remapped from the source range
`0..255` into `outputRange` by the linear formula of the specification,
`out = (in - 0) / (255 - 0) * (max - min) + min`. Channel indices at or
beyond 3 hold the default value 0. -/
def mkImageTensor (image : Mat) (outputSize : ℕ × ℕ) (outputRange : ℚ × ℚ) :
    ImageTensor :=
  { height := outputSize.2
    width := outputSize.1
    channels := 3
    tensor_data := fun i j c =>
      if h : c < 3 then
        let p := bilinearSample image ⟨c, h⟩
          (srcCoord image.rows outputSize.2 i) (srcCoord image.cols outputSize.1 j)
        (p - 0) / (255 - 0) * (outputRange.2 - outputRange.1) + outputRange.1
      else 0 }

/-- Modelled from the spec: `image_to_tensor` from `transform.rs` (not in
the provided sources), at the argument shape used by `infer`. It fails
with `UnsupportedShape` when the source image has zero width or height and
otherwise returns the resized, range-remapped tensor. -/
def image_to_tensor (image : Mat) (outputSize : ℕ × ℕ) (outputRange : ℚ × ℚ) :
    Except Err ImageTensor :=
  if image.rows = 0 ∨ image.cols = 0 then Except.error Err.UnsupportedShape
  else Except.ok (mkImageTensor image outputSize outputRange)

/-- A 4-D tensor, the `ImageTensor` after `insert_axis(Axis(0))`. -/
structure Tensor4 where
  d0 : ℕ
  d1 : ℕ
  d2 : ℕ
  d3 : ℕ
  data : ℕ → ℕ → ℕ → ℕ → ℚ

/-- `insert_axis(Axis(0))` on the preprocessed tensor: a leading batch
axis of size 1. -/
def ImageTensor.insert_axis (t : ImageTensor) : Tensor4 :=
  { d0 := 1
    d1 := t.height
    d2 := t.width
    d3 := t.channels
    data := fun _ i j c => t.tensor_data i j c }

/-- Row-major flattening of a 4-D tensor, as `into_iter().collect()` on an
`ndarray` array in standard layout. -/
def Tensor4.flatten (t : Tensor4) : List ℚ :=
  (List.range t.d0).flatMap fun a =>
    (List.range t.d1).flatMap fun i =>
      (List.range t.d2).flatMap fun j =>
        (List.range t.d3).map fun c => t.data a i j c

/-- Output tensor metadata reported by the interpreter
(`tensor_info(index).dims`). -/
structure TensorInfo where
  dims : List ℕ
  deriving DecidableEq

/-- The loaded `FlatBufferModel` together with the behaviour of the tflite
interpreter built from it, modelled at the interface boundary (spec treats
the inference engine as an external collaborator). `run buf i` is the data
of tensor `i` after invoking the graph on input buffer `buf`; `none`
models a failing tensor data read. The engine is deterministic: every
field is a pure value or function. -/
structure FlatBufferModel where
  buildOk : Bool
  allocOk : Bool
  dataMutOk : Bool
  invokeOk : Bool
  inputs : List ℕ
  outputs : List ℕ
  inputLen : ℕ
  tensorInfo : ℕ → Option TensorInfo
  run : List ℚ → ℕ → Option (List ℚ)

/-- The `FaceEmbeddings` struct from the source: a model path and the
loaded flatbuffer model. -/
structure FaceEmbeddings where
  model_path : String
  model : FlatBufferModel

/-- The default model path used by `FaceEmbeddings::new` when no path is
supplied. -/
def defaultModelPath : String := "./models/face_embeddings.tflite"

/-- `FaceEmbeddings::new`: resolves the optional path argument against the
default path, then loads the model file. `fs` models
`FlatBufferModel::build_from_file`: it yields the parsed model, or `none`
when the file at that path is missing or malformed, in which case the
error is propagated by `?` as `ModelLoadError`. -/
def FaceEmbeddings.new (fs : String → Option FlatBufferModel)
    (model_path : Option String) : Except Err FaceEmbeddings :=
  let model_path_buf : String :=
    match model_path with
    | some path => path
    | none => defaultModelPath
  match fs model_path_buf with
  | some model => Except.ok { model_path := model_path_buf, model := model }
  | none => Except.error Err.ModelLoadError

/-- A 2-D array in the manner of `ndarray::Array2`, stored as rows. -/
structure Array2 (α : Type) where
  dim0 : ℕ
  dim1 : ℕ
  rows : List (List α)

/-- `Array2::from_shape_vec((d0, d1), v)`: errs unless the data length
matches the requested shape, then chunks the vector into `d0` rows of
length `d1`. -/
def Array2.from_shape_vec (d0 d1 : ℕ) (v : List ℚ) : Except Err (Array2 ℚ) :=
  if v.length = d0 * d1 then
    Except.ok
      { dim0 := d0
        dim1 := d1
        rows := (List.range d0).map fun i => (v.drop (i * d1)).take d1 }
  else Except.error Err.ShapeError

/-- View the rational embedding values as reals, on which the idealized
floating-point normalization acts. -/
def Array2.toReal (a : Array2 ℚ) : Array2 ℝ :=
  { dim0 := a.dim0
    dim1 := a.dim1
    rows := a.rows.map fun r => r.map fun x => (x : ℝ) }

/-- The Euclidean norm of a row vector: `sqrt (sum (v_i ^ 2))`. -/
noncomputable def rowNorm (v : List ℝ) : ℝ :=
  Real.sqrt ((v.map fun x => x ^ 2).sum)

/-- Modelled from the spec: one row of `utils.rs::l2_norm` (not in the
provided sources). A row of positive norm is divided by its norm; a row
of zero norm is passed through unchanged. -/
noncomputable def normRow (v : List ℝ) : List ℝ :=
  if 0 < rowNorm v then v.map fun x => x / rowNorm v else v

/-- Modelled from the spec: `utils.rs::l2_norm`, row-wise L2
normalization of the raw embedding matrix. -/
noncomputable def l2_norm (m : List (List ℝ)) : List (List ℝ) :=
  m.map normRow

/-- Row-wise L2 normalization of an `Array2`, preserving its shape. -/
noncomputable def l2_normA (a : Array2 ℝ) : Array2 ℝ :=
  { dim0 := a.dim0
    dim1 := a.dim1
    rows := l2_norm a.rows }

/-- The final stage of `infer` (source lines 77 to 88): read the output
tensor info (`MissingOutputInfo` when absent), unwrap the output data
read (a panic when it fails), reshape the data by the reported dims
(indexing `dims[0]` and `dims[1]` panics when fewer than two dims are
reported, and `from_shape_vec` errs on a length mismatch), and
L2-normalize the result. -/
noncomputable def retrieve_embeddings (model : FlatBufferModel)
    (sub_tensor : List ℚ) (embeddings_index : ℕ) : Res (Array2 ℝ) :=
  match model.tensorInfo embeddings_index with
  | none => Res.err Err.MissingOutputInfo
  | some bbox_info =>
    match model.run sub_tensor embeddings_index with
    | none => Res.panicked PanicSite.tensorDataUnwrap
    | some raw_embeddings =>
      match bbox_info.dims with
      | d0 :: d1 :: _ =>
        match Array2.from_shape_vec d0 d1 raw_embeddings with
        | Except.error e => Res.err e
        | Except.ok embeddings => Res.ok (l2_normA embeddings.toReal)
      | _ => Res.panicked PanicSite.indexDims

/-- `FaceEmbeddings::infer` from the source, step for step: build the
interpreter and allocate tensors; crop the image to the bounding box;
preprocess to a 112 by 112 tensor in the range 0 to 1; insert the batch
axis; index the input list at 0 (a panic when empty); copy the flattened
data into the input buffer (`copy_from_slice` panics on a length
mismatch); invoke; index the output list at 0 (a panic when empty); then
retrieve, reshape and normalize the output. -/
noncomputable def FaceEmbeddings.infer (fe : FaceEmbeddings) (image : Mat)
    (bbox : BBox) : Res (Array2 ℝ) :=
  if fe.model.buildOk = false then Res.err Err.BuilderError
  else if fe.model.allocOk = false then Res.err Err.AllocationError
  else
    match crop_image_to_bbox image bbox with
    | Res.err e => Res.err e
    | Res.panicked s => Res.panicked s
    | Res.ok roi_image =>
      match image_to_tensor roi_image (IMG_SIZE, IMG_SIZE) (0, 1) with
      | Except.error e => Res.err e
      | Except.ok image_data =>
        let input_data := image_data.insert_axis
        match fe.model.inputs.head? with
        | none => Res.panicked PanicSite.indexInputs
        | some _input_index =>
          let sub_tensor := input_data.flatten
          if fe.model.dataMutOk = false then Res.err Err.TensorDataMutError
          else if sub_tensor.length ≠ fe.model.inputLen then
            Res.panicked PanicSite.copyFromSlice
          else if fe.model.invokeOk = false then Res.err Err.InferenceError
          else
            match fe.model.outputs.head? with
            | none => Res.panicked PanicSite.indexOutputs
            | some embeddings_index =>
              retrieve_embeddings fe.model sub_tensor embeddings_index

/-! Concrete fixtures used by the closed evaluation theorems below. -/

/-- A 10 by 10 test image with constant pixel value 7. -/
def imgB : Mat := { rows := 10, cols := 10, data := fun _ _ _ => 7 }

/-- A bounding box extending past the right and bottom edges of `imgB`. -/
def bboxOut : BBox := { xmin := 2, ymin := 2, xmax := 20, ymax := 20 }

/-- A bounding box of zero width and zero height. -/
def bboxZero : BBox := { xmin := 2, ymin := 2, xmax := 2, ymax := 2 }

/-- A bounding box strictly inside `imgB`. -/
def bboxW : BBox := { xmin := 1, ymin := 1, xmax := 4, ymax := 4 }

/-- A 4 by 4 test image with constant pixel value 9. -/
def imgA : Mat := { rows := 4, cols := 4, data := fun _ _ _ => 9 }

/-- A 2 by 2 bounding box at the origin of `imgA`. -/
def bboxA : BBox := { xmin := 0, ymin := 0, xmax := 2, ymax := 2 }

/-- The crop of `imgA` to `bboxA`. -/
def roiA : Mat := { rows := 2, cols := 2, data := fun _ _ _ => 9 }

/-- A 2 by 2 test image with constant pixel value 100. -/
def roiC : Mat := { rows := 2, cols := 2, data := fun _ _ _ => 100 }

/-- The empty matrix produced by cropping `imgB` to `bboxZero`. -/
def matZ : Mat :=
  { rows := 0, cols := 0, data := fun i j c => imgB.data (2 + i) (2 + j) c }

/-- A well-behaved engine whose model reports output dims `[1, 2]` and
produces output data `[3, 4]`. -/
def model4 : FlatBufferModel :=
  { buildOk := true
    allocOk := true
    dataMutOk := true
    invokeOk := true
    inputs := [0]
    outputs := [0]
    inputLen := 37632
    tensorInfo := fun _ => some { dims := [1, 2] }
    run := fun _ _ => some [3, 4] }

/-- A session holding `model4`. -/
def fe4 : FaceEmbeddings := { model_path := defaultModelPath, model := model4 }

/-- An engine that cannot report output tensor metadata. -/
def model5 : FlatBufferModel :=
  { buildOk := true
    allocOk := true
    dataMutOk := true
    invokeOk := true
    inputs := [0]
    outputs := [0]
    inputLen := 37632
    tensorInfo := fun _ => none
    run := fun _ _ => some [3, 4] }

/-- A session holding `model5`. -/
def fe5 : FaceEmbeddings := { model_path := defaultModelPath, model := model5 }

/-- An engine whose model reports an empty input tensor list. -/
def modelNoInputs : FlatBufferModel :=
  { buildOk := true
    allocOk := true
    dataMutOk := true
    invokeOk := true
    inputs := []
    outputs := [0]
    inputLen := 37632
    tensorInfo := fun _ => some { dims := [1, 128] }
    run := fun _ _ => some (List.replicate 128 1) }

/-- A session holding `modelNoInputs`. -/
def feNoInputs : FaceEmbeddings :=
  { model_path := defaultModelPath, model := modelNoInputs }

/-- A filesystem that holds `model4` at every path. -/
def fsW : String → Option FlatBufferModel := fun _ => some model4

/-- The session that `FaceEmbeddings.new fsW` produces for the path
`"m.tflite"`. -/
def feW : FaceEmbeddings := { model_path := "m.tflite", model := model4 }

/-! Helper lemmas shared by the claim theorems. -/

theorem convex_comb_bounds {a b t lo hi : ℚ} (ha0 : lo ≤ a) (ha1 : a ≤ hi)
    (hb0 : lo ≤ b) (hb1 : b ≤ hi) (ht0 : 0 ≤ t) (ht1 : t ≤ 1) :
    lo ≤ (1 - t) * a + t * b ∧ (1 - t) * a + t * b ≤ hi := by
  constructor <;> nlinarith

theorem bilinearSample_bounds (m : Mat) (c : Fin 3) (sy sx : ℚ)
    (hpix : ∀ i j ch, m.data i j ch ≤ 255) :
    0 ≤ bilinearSample m c sy sx ∧ bilinearSample m c sy sx ≤ 255 := by
  unfold bilinearSample
  have hfy0 : (0:ℚ) ≤ Int.fract sy := Int.fract_nonneg sy
  have hfy1 : Int.fract sy ≤ 1 := le_of_lt (Int.fract_lt_one sy)
  have hfx0 : (0:ℚ) ≤ Int.fract sx := Int.fract_nonneg sx
  have hfx1 : Int.fract sx ≤ 1 := le_of_lt (Int.fract_lt_one sx)
  have hp : ∀ i j, (0:ℚ) ≤ (m.data i j c : ℚ) ∧ (m.data i j c : ℚ) ≤ 255 := by
    intro i j
    constructor
    · positivity
    · exact_mod_cast hpix i j c
  have h1 := convex_comb_bounds (hp (clampIdx m.rows ⌊sy⌋) (clampIdx m.cols ⌊sx⌋)).1
    (hp (clampIdx m.rows ⌊sy⌋) (clampIdx m.cols ⌊sx⌋)).2
    (hp (clampIdx m.rows ⌊sy⌋) (clampIdx m.cols (⌊sx⌋ + 1))).1
    (hp (clampIdx m.rows ⌊sy⌋) (clampIdx m.cols (⌊sx⌋ + 1))).2 hfx0 hfx1
  have h2 := convex_comb_bounds
    (hp (clampIdx m.rows (⌊sy⌋ + 1)) (clampIdx m.cols ⌊sx⌋)).1
    (hp (clampIdx m.rows (⌊sy⌋ + 1)) (clampIdx m.cols ⌊sx⌋)).2
    (hp (clampIdx m.rows (⌊sy⌋ + 1)) (clampIdx m.cols (⌊sx⌋ + 1))).1
    (hp (clampIdx m.rows (⌊sy⌋ + 1)) (clampIdx m.cols (⌊sx⌋ + 1))).2 hfx0 hfx1
  exact convex_comb_bounds h1.1 h1.2 h2.1 h2.2 hfy0 hfy1

theorem tensor_value_bounds (image : Mat) (i j c : ℕ)
    (hpix : ∀ i j ch, image.data i j ch ≤ 255) :
    0 ≤ (mkImageTensor image (IMG_SIZE, IMG_SIZE) (0, 1)).tensor_data i j c ∧
      (mkImageTensor image (IMG_SIZE, IMG_SIZE) (0, 1)).tensor_data i j c ≤ 1 := by
  unfold mkImageTensor
  dsimp only
  by_cases h : c < 3
  · rw [dif_pos h]
    have hb := bilinearSample_bounds image ⟨c, h⟩
      (srcCoord image.rows IMG_SIZE i) (srcCoord image.cols IMG_SIZE j) hpix
    constructor <;> nlinarith [hb.1, hb.2]
  · rw [dif_neg h]
    norm_num

theorem sumSq_nonneg (v : List ℝ) : 0 ≤ (v.map fun x => x ^ 2).sum :=
  List.sum_nonneg fun x hx => by
    obtain ⟨y, _, rfl⟩ := List.mem_map.mp hx
    positivity

theorem rowNorm_nonneg (v : List ℝ) : 0 ≤ rowNorm v := Real.sqrt_nonneg _

theorem sumSq_map_div (v : List ℝ) (n : ℝ) :
    ((v.map fun x => x / n).map fun x => x ^ 2).sum =
      ((v.map fun x => x ^ 2).sum) / n ^ 2 := by
  induction v with
  | nil => simp
  | cons a l ih =>
      simp only [List.map_cons, List.sum_cons, ih]
      ring

theorem rowNorm_normalized (v : List ℝ) (hn : 0 < rowNorm v) :
    rowNorm (v.map fun x => x / rowNorm v) = 1 := by
  unfold rowNorm at *
  rw [sumSq_map_div]
  rw [Real.sq_sqrt (sumSq_nonneg v)]
  have hS : 0 < ((v.map fun x => x ^ 2).sum) := Real.sqrt_pos.mp hn
  rw [div_self (ne_of_gt hS), Real.sqrt_one]

theorem normRow_length (v : List ℝ) : (normRow v).length = v.length := by
  unfold normRow
  split <;> simp

theorem length_flatMap_const {α : Type} (n k : ℕ) (f : ℕ → List α)
    (h : ∀ i, (f i).length = k) :
    ((List.range n).flatMap f).length = n * k := by
  rw [List.length_flatMap]
  have he : List.map (List.length ∘ f) (List.range n) =
      List.map (fun _ => k) (List.range n) :=
    List.map_congr_left fun a _ => h a
  rw [he, List.map_const', List.sum_replicate, List.length_range, smul_eq_mul]

theorem flatten_length (t : Tensor4) :
    t.flatten.length = t.d0 * t.d1 * t.d2 * t.d3 := by
  unfold Tensor4.flatten
  rw [length_flatMap_const t.d0 (t.d1 * t.d2 * t.d3)]
  · ring
  · intro a
    rw [length_flatMap_const t.d1 (t.d2 * t.d3)]
    · ring
    · intro i
      rw [length_flatMap_const t.d2 t.d3]
      intro j
      simp

theorem image_to_tensor_ok (image : Mat) (s : ℕ × ℕ) (r : ℚ × ℚ)
    (hr : image.rows ≠ 0) (hc : image.cols ≠ 0) :
    image_to_tensor image s r = Except.ok (mkImageTensor image s r) := by
  simp [image_to_tensor, hr, hc]

theorem crop_ok_of_bounds (image : Mat) (bbox : BBox)
    (hx : 0 ≤ truncQ bbox.xmin) (hy : 0 ≤ truncQ bbox.ymin)
    (hw : 0 ≤ truncQ (bbox.xmax - bbox.xmin))
    (hh : 0 ≤ truncQ (bbox.ymax - bbox.ymin))
    (hxw : truncQ bbox.xmin + truncQ (bbox.xmax - bbox.xmin) ≤ (image.cols : ℤ))
    (hyh : truncQ bbox.ymin + truncQ (bbox.ymax - bbox.ymin) ≤ (image.rows : ℤ)) :
    crop_image_to_bbox image bbox = Res.ok
      { rows := (truncQ (bbox.ymax - bbox.ymin)).toNat
        cols := (truncQ (bbox.xmax - bbox.xmin)).toNat
        data := fun i j c =>
          image.data ((truncQ bbox.ymin).toNat + i) ((truncQ bbox.xmin).toNat + j) c } := by
  simp only [crop_image_to_bbox, Mat.roi]
  rw [if_pos ⟨hx, hw, hxw, hy, hh, hyh⟩]

theorem crop_imgA : crop_image_to_bbox imgA bboxA = Res.ok roiA := by
  rw [crop_ok_of_bounds imgA bboxA (by norm_num [truncQ, bboxA])
    (by norm_num [truncQ, bboxA]) (by norm_num [truncQ, bboxA])
    (by norm_num [truncQ, bboxA]) (by norm_num [truncQ, bboxA, imgA])
    (by norm_num [truncQ, bboxA, imgA])]
  norm_num [truncQ, bboxA, imgA, roiA, Mat.mk.injEq]
  decide

theorem infer_steps (fe : FaceEmbeddings) (image : Mat) (bbox : BBox) (roi : Mat)
    (hbuild : fe.model.buildOk = true) (halloc : fe.model.allocOk = true)
    (hmut : fe.model.dataMutOk = true) (hinvoke : fe.model.invokeOk = true)
    (hcrop : crop_image_to_bbox image bbox = Res.ok roi)
    (hr : roi.rows ≠ 0) (hc : roi.cols ≠ 0)
    (outIdx : ℕ)
    (hin : fe.model.inputs ≠ [])
    (hout : fe.model.outputs.head? = some outIdx)
    (hlen : fe.model.inputLen = IMG_SIZE * IMG_SIZE * 3) :
    fe.infer image bbox =
      retrieve_embeddings fe.model
        ((mkImageTensor roi (IMG_SIZE, IMG_SIZE) (0, 1)).insert_axis.flatten)
        outIdx := by
  obtain ⟨inIdx, hin2⟩ : ∃ i, fe.model.inputs.head? = some i := by
    cases h : fe.model.inputs.head? with
    | none => exact absurd (List.head?_eq_none_iff.mp h) hin
    | some i => exact ⟨i, rfl⟩
  have hsub : ((mkImageTensor roi (IMG_SIZE, IMG_SIZE) (0, 1)).insert_axis.flatten).length =
      fe.model.inputLen := by
    rw [flatten_length, hlen]
    rfl
  unfold FaceEmbeddings.infer
  rw [hbuild, halloc]
  simp only [Bool.true_eq_false, if_false]
  rw [hcrop]
  dsimp only
  rw [image_to_tensor_ok roi _ _ hr hc]
  dsimp only
  rw [hin2]
  dsimp only
  rw [hmut]
  simp only [Bool.true_eq_false, if_false]
  rw [if_neg (not_not_intro hsub)]
  rw [hinvoke]
  simp only [Bool.true_eq_false, if_false]
  rw [hout]

theorem infer_no_inputs (fe : FaceEmbeddings) (image : Mat) (bbox : BBox)
    (roi : Mat)
    (hbuild : fe.model.buildOk = true) (halloc : fe.model.allocOk = true)
    (hcrop : crop_image_to_bbox image bbox = Res.ok roi)
    (hr : roi.rows ≠ 0) (hc : roi.cols ≠ 0)
    (hin : fe.model.inputs = []) :
    fe.infer image bbox = Res.panicked PanicSite.indexInputs := by
  unfold FaceEmbeddings.infer
  rw [hbuild, halloc]
  simp only [Bool.true_eq_false, if_false]
  rw [hcrop]
  dsimp only
  rw [image_to_tensor_ok roi _ _ hr hc]
  dsimp only
  rw [hin]
  rfl

theorem crop_panic_site (image : Mat) (bbox : BBox) (s : PanicSite)
    (h : crop_image_to_bbox image bbox = Res.panicked s) :
    s = PanicSite.matRoiUnwrap := by
  unfold crop_image_to_bbox at h
  split at h
  · cases h
  · cases h
    rfl

theorem infer_panic_sites (fe : FaceEmbeddings) (image : Mat) (bbox : BBox)
    (s : PanicSite) (h : fe.infer image bbox = Res.panicked s) :
    s = PanicSite.matRoiUnwrap ∨ s = PanicSite.copyFromSlice ∨
      s = PanicSite.indexDims ∨
      (s = PanicSite.indexInputs ∧ fe.model.inputs = []) ∨
      (s = PanicSite.indexOutputs ∧ fe.model.outputs = []) ∨
      (s = PanicSite.tensorDataUnwrap ∧ ∃ buf i, fe.model.run buf i = none) := by
  unfold FaceEmbeddings.infer retrieve_embeddings at h
  dsimp only at h
  repeat' split at h
  all_goals (first | (injection h with h2; subst h2) | injection h)
  all_goals
    first
      | exact Or.inl (crop_panic_site _ _ _ (by assumption))
      | exact Or.inr (Or.inl rfl)
      | exact Or.inr (Or.inr (Or.inl rfl))
      | exact Or.inr (Or.inr (Or.inr (Or.inl
          ⟨rfl, List.head?_eq_none_iff.mp (by assumption)⟩)))
      | exact Or.inr (Or.inr (Or.inr (Or.inr (Or.inl
          ⟨rfl, List.head?_eq_none_iff.mp (by assumption)⟩))))
      | exact Or.inr (Or.inr (Or.inr (Or.inr (Or.inr
          ⟨rfl, _, _, by assumption⟩))))

/-! The claim theorems. -/

/-- Claim C1: the claim states that `crop_image_to_bbox` fails with a
returned `InvalidRegion` error whenever the computed width or height is
non-positive or the rectangle extends outside the image; the code instead
calls `Mat::roi(...).unwrap()`, so a rectangle extending outside the
bounds panics, and a zero-sized rectangle passes the OpenCV range check
and succeeds with an empty image. This theorem evaluates both failing
inputs. -/
theorem crop_unwrap_bug :
    crop_image_to_bbox imgB bboxOut = Res.panicked PanicSite.matRoiUnwrap ∧
    ∃ m : Mat, crop_image_to_bbox imgB bboxZero = Res.ok m ∧
      m.rows = 0 ∧ m.cols = 0 := by
  constructor
  · simp only [crop_image_to_bbox, Mat.roi, truncQ, imgB, bboxOut]
    norm_num
  · refine ⟨matZ, ?_, rfl, rfl⟩
    simp only [crop_image_to_bbox, Mat.roi, truncQ, imgB, bboxZero, matZ]
    norm_num

/-- Claim C2: for a bounding box inside the image bounds,
`crop_image_to_bbox` builds the rectangle `(x = xmin, y = ymin,
width = xmax - xmin, height = ymax - ymin)` with every coordinate
truncated toward zero, and the returned image dimensions equal the
truncated width and height. -/
theorem crop_image_to_bbox_rect_dims (image : Mat) (bbox : BBox)
    (hx : 0 ≤ truncQ bbox.xmin) (hy : 0 ≤ truncQ bbox.ymin)
    (hw : 0 ≤ truncQ (bbox.xmax - bbox.xmin))
    (hh : 0 ≤ truncQ (bbox.ymax - bbox.ymin))
    (hxw : truncQ bbox.xmin + truncQ (bbox.xmax - bbox.xmin) ≤ (image.cols : ℤ))
    (hyh : truncQ bbox.ymin + truncQ (bbox.ymax - bbox.ymin) ≤ (image.rows : ℤ)) :
    crop_image_to_bbox image bbox = Res.ok
      { rows := (truncQ (bbox.ymax - bbox.ymin)).toNat
        cols := (truncQ (bbox.xmax - bbox.xmin)).toNat
        data := fun i j c =>
          image.data ((truncQ bbox.ymin).toNat + i) ((truncQ bbox.xmin).toNat + j) c } :=
  crop_ok_of_bounds image bbox hx hy hw hh hxw hyh

theorem crop_image_to_bbox_rect_dims_witness :
    (0 ≤ truncQ bboxW.xmin ∧ 0 ≤ truncQ bboxW.ymin ∧
      0 ≤ truncQ (bboxW.xmax - bboxW.xmin) ∧
      0 ≤ truncQ (bboxW.ymax - bboxW.ymin) ∧
      truncQ bboxW.xmin + truncQ (bboxW.xmax - bboxW.xmin) ≤ (imgB.cols : ℤ) ∧
      truncQ bboxW.ymin + truncQ (bboxW.ymax - bboxW.ymin) ≤ (imgB.rows : ℤ)) ∧
    crop_image_to_bbox imgB bboxW = Res.ok
      { rows := (truncQ (bboxW.ymax - bboxW.ymin)).toNat
        cols := (truncQ (bboxW.xmax - bboxW.xmin)).toNat
        data := fun i j c =>
          imgB.data ((truncQ bboxW.ymin).toNat + i) ((truncQ bboxW.xmin).toNat + j) c } := by
  have h1 : 0 ≤ truncQ bboxW.xmin := by norm_num [truncQ, bboxW]
  have h2 : 0 ≤ truncQ bboxW.ymin := by norm_num [truncQ, bboxW]
  have h3 : 0 ≤ truncQ (bboxW.xmax - bboxW.xmin) := by norm_num [truncQ, bboxW]
  have h4 : 0 ≤ truncQ (bboxW.ymax - bboxW.ymin) := by norm_num [truncQ, bboxW]
  have h5 : truncQ bboxW.xmin + truncQ (bboxW.xmax - bboxW.xmin) ≤ (imgB.cols : ℤ) := by
    norm_num [truncQ, bboxW, imgB]
  have h6 : truncQ bboxW.ymin + truncQ (bboxW.ymax - bboxW.ymin) ≤ (imgB.rows : ℤ) := by
    norm_num [truncQ, bboxW, imgB]
  exact ⟨⟨h1, h2, h3, h4, h5, h6⟩,
    crop_image_to_bbox_rect_dims imgB bboxW h1 h2 h3 h4 h5 h6⟩

/-- Claim C3: the preprocessing step inside `infer` is invoked with the
fixed target size `(IMG_SIZE, IMG_SIZE)` where `IMG_SIZE = 112` and the
target range `(0, 1)`, and for a nonempty cropped image with byte pixel
values it returns a tensor of shape `(112, 112, 3)` all of whose values
lie in the closed interval from 0 to 1. -/
theorem infer_preprocess_shape_range (roi : Mat)
    (hr : roi.rows ≠ 0) (hc : roi.cols ≠ 0)
    (hpix : ∀ i j ch, roi.data i j ch ≤ 255) :
    IMG_SIZE = 112 ∧
    image_to_tensor roi (IMG_SIZE, IMG_SIZE) (0, 1) =
      Except.ok (mkImageTensor roi (IMG_SIZE, IMG_SIZE) (0, 1)) ∧
    (mkImageTensor roi (IMG_SIZE, IMG_SIZE) (0, 1)).height = 112 ∧
    (mkImageTensor roi (IMG_SIZE, IMG_SIZE) (0, 1)).width = 112 ∧
    (mkImageTensor roi (IMG_SIZE, IMG_SIZE) (0, 1)).channels = 3 ∧
    ∀ i j c,
      0 ≤ (mkImageTensor roi (IMG_SIZE, IMG_SIZE) (0, 1)).tensor_data i j c ∧
      (mkImageTensor roi (IMG_SIZE, IMG_SIZE) (0, 1)).tensor_data i j c ≤ 1 :=
  ⟨rfl, image_to_tensor_ok roi _ _ hr hc, rfl, rfl, rfl,
    fun i j c => tensor_value_bounds roi i j c hpix⟩

theorem infer_preprocess_shape_range_witness :
    (roiC.rows ≠ 0 ∧ roiC.cols ≠ 0 ∧ ∀ i j ch, roiC.data i j ch ≤ 255) ∧
    (IMG_SIZE = 112 ∧
      image_to_tensor roiC (IMG_SIZE, IMG_SIZE) (0, 1) =
        Except.ok (mkImageTensor roiC (IMG_SIZE, IMG_SIZE) (0, 1)) ∧
      (mkImageTensor roiC (IMG_SIZE, IMG_SIZE) (0, 1)).height = 112 ∧
      (mkImageTensor roiC (IMG_SIZE, IMG_SIZE) (0, 1)).width = 112 ∧
      (mkImageTensor roiC (IMG_SIZE, IMG_SIZE) (0, 1)).channels = 3 ∧
      ∀ i j c,
        0 ≤ (mkImageTensor roiC (IMG_SIZE, IMG_SIZE) (0, 1)).tensor_data i j c ∧
        (mkImageTensor roiC (IMG_SIZE, IMG_SIZE) (0, 1)).tensor_data i j c ≤ 1) := by
  have h1 : roiC.rows ≠ 0 := by decide
  have h2 : roiC.cols ≠ 0 := by decide
  have h3 : ∀ i j ch, roiC.data i j ch ≤ 255 := by
    intro i j ch
    show (100 : ℕ) ≤ 255
    decide
  exact ⟨⟨h1, h2, h3⟩, infer_preprocess_shape_range roiC h1 h2 h3⟩

/-- Claim C4: on a successful call, the preprocessed tensor receives a
leading batch axis of size 1, its flattened data is what the interpreter
runs on, and the output is reshaped into a 2-D array whose two dimensions
are exactly the dims reported by the output tensor metadata, so the
result has first dimension 1 (the submitted batch) and second dimension
the reported embedding width `d`, whatever value `d` the loaded model
variant reports. -/
theorem infer_output_shape_from_metadata (fe : FaceEmbeddings) (image : Mat)
    (bbox : BBox) (roi : Mat) (outIdx d : ℕ) (raw : List ℚ)
    (hbuild : fe.model.buildOk = true) (halloc : fe.model.allocOk = true)
    (hmut : fe.model.dataMutOk = true) (hinvoke : fe.model.invokeOk = true)
    (hcrop : crop_image_to_bbox image bbox = Res.ok roi)
    (hr : roi.rows ≠ 0) (hc : roi.cols ≠ 0)
    (hin : fe.model.inputs ≠ [])
    (hout : fe.model.outputs.head? = some outIdx)
    (hlen : fe.model.inputLen = IMG_SIZE * IMG_SIZE * 3)
    (hinfo : fe.model.tensorInfo outIdx = some { dims := [1, d] })
    (hrun : fe.model.run
        ((mkImageTensor roi (IMG_SIZE, IMG_SIZE) (0, 1)).insert_axis.flatten)
        outIdx = some raw)
    (hraw : raw.length = 1 * d) :
    ∃ E : Array2 ℚ, Array2.from_shape_vec 1 d raw = Except.ok E ∧
      fe.infer image bbox = Res.ok (l2_normA E.toReal) ∧
      (l2_normA E.toReal).dim0 = 1 ∧ (l2_normA E.toReal).dim1 = d := by
  refine ⟨{ dim0 := 1, dim1 := d,
            rows := (List.range 1).map fun i => (raw.drop (i * d)).take d },
    ?_, ?_, rfl, rfl⟩
  · unfold Array2.from_shape_vec
    rw [if_pos hraw]
  · rw [infer_steps fe image bbox roi hbuild halloc hmut hinvoke hcrop hr hc
      outIdx hin hout hlen]
    unfold retrieve_embeddings
    rw [hinfo, hrun]
    dsimp only
    unfold Array2.from_shape_vec
    rw [if_pos hraw]

theorem infer_output_shape_from_metadata_witness :
    (fe4.model.tensorInfo 0 = some { dims := [1, 2] } ∧
      fe4.model.run
        ((mkImageTensor roiA (IMG_SIZE, IMG_SIZE) (0, 1)).insert_axis.flatten)
        0 = some [3, 4] ∧
      ([3, 4] : List ℚ).length = 1 * 2) ∧
    ∃ E : Array2 ℚ, Array2.from_shape_vec 1 2 [3, 4] = Except.ok E ∧
      fe4.infer imgA bboxA = Res.ok (l2_normA E.toReal) ∧
      (l2_normA E.toReal).dim0 = 1 ∧ (l2_normA E.toReal).dim1 = 2 := by
  refine ⟨⟨rfl, rfl, rfl⟩, ?_⟩
  exact infer_output_shape_from_metadata fe4 imgA bboxA roiA 0 2 [3, 4]
    rfl rfl rfl rfl crop_imgA (by decide) (by decide) (by decide) rfl rfl rfl
    rfl rfl

/-- Claim C5: when the interpreter cannot report the output tensor
metadata (`tensor_info` yields nothing), `infer` returns the
`MissingOutputInfo` error rather than succeeding or panicking. -/
theorem infer_missing_output_info (fe : FaceEmbeddings) (image : Mat)
    (bbox : BBox) (roi : Mat) (outIdx : ℕ)
    (hbuild : fe.model.buildOk = true) (halloc : fe.model.allocOk = true)
    (hmut : fe.model.dataMutOk = true) (hinvoke : fe.model.invokeOk = true)
    (hcrop : crop_image_to_bbox image bbox = Res.ok roi)
    (hr : roi.rows ≠ 0) (hc : roi.cols ≠ 0)
    (hin : fe.model.inputs ≠ [])
    (hout : fe.model.outputs.head? = some outIdx)
    (hlen : fe.model.inputLen = IMG_SIZE * IMG_SIZE * 3)
    (hinfo : fe.model.tensorInfo outIdx = none) :
    fe.infer image bbox = Res.err Err.MissingOutputInfo := by
  rw [infer_steps fe image bbox roi hbuild halloc hmut hinvoke hcrop hr hc
    outIdx hin hout hlen]
  unfold retrieve_embeddings
  rw [hinfo]

theorem infer_missing_output_info_witness :
    fe5.model.tensorInfo 0 = none ∧
    fe5.infer imgA bboxA = Res.err Err.MissingOutputInfo := by
  refine ⟨rfl, ?_⟩
  exact infer_missing_output_info fe5 imgA bboxA roiA 0
    rfl rfl rfl rfl crop_imgA (by decide) (by decide) (by decide) rfl rfl rfl

/-- Claim C6: row-wise L2 normalization maps every row of positive norm
`n` to the row divided elementwise by `n`, whose norm is then exactly 1;
it leaves every row of zero norm unchanged; and it preserves the shape of
the input (the number of rows and the length of each row). -/
theorem l2_norm_rowwise_spec (m : List (List ℝ)) (k : ℕ) (hk : k < m.length) :
    (l2_norm m).length = m.length ∧
    ((l2_norm m).getD k []).length = (m.getD k []).length ∧
    (0 < rowNorm (m.getD k []) →
      (l2_norm m).getD k [] =
          (m.getD k []).map (fun x => x / rowNorm (m.getD k [])) ∧
        rowNorm ((l2_norm m).getD k []) = 1) ∧
    (rowNorm (m.getD k []) = 0 → (l2_norm m).getD k [] = m.getD k []) := by
  have hlen : (l2_norm m).length = m.length := by simp [l2_norm]
  have hget : (l2_norm m).getD k [] = normRow (m.getD k []) := by
    rw [List.getD_eq_getElem?_getD, List.getD_eq_getElem?_getD]
    rw [List.getElem?_eq_getElem hk, List.getElem?_eq_getElem (hlen ▸ hk)]
    simp [l2_norm]
  refine ⟨hlen, ?_, ?_, ?_⟩
  · rw [hget]
    exact normRow_length _
  · intro hpos
    rw [hget]
    constructor
    · unfold normRow
      rw [if_pos hpos]
    · unfold normRow
      rw [if_pos hpos]
      exact rowNorm_normalized _ hpos
  · intro hz
    rw [hget]
    unfold normRow
    rw [if_neg (by rw [hz]; exact lt_irrefl 0)]

theorem l2_norm_rowwise_spec_witness :
    (0 : ℕ) < [[(3 : ℝ), 4]].length ∧
    0 < rowNorm [(3 : ℝ), 4] ∧
    ((l2_norm [[(3 : ℝ), 4]]).getD 0 [] =
        [(3 : ℝ), 4].map (fun x => x / rowNorm [(3 : ℝ), 4]) ∧
      rowNorm ((l2_norm [[(3 : ℝ), 4]]).getD 0 []) = 1) := by
  have hk : (0 : ℕ) < [[(3 : ℝ), 4]].length := by simp
  have hpos : 0 < rowNorm [(3 : ℝ), 4] := by
    unfold rowNorm
    rw [show ([(3 : ℝ), 4].map fun x => x ^ 2).sum = 25 by norm_num]
    exact Real.sqrt_pos.mpr (by norm_num)
  exact ⟨hk, hpos, (l2_norm_rowwise_spec [[(3 : ℝ), 4]] 0 hk).2.2.1 hpos⟩

/-- Claim C7: normalizing a row that already has unit norm is a no-op:
the normalization divides by 1 and returns the row unchanged. -/
theorem l2_norm_unit_row_noop (v : List ℝ) (h : rowNorm v = 1) :
    l2_norm [v] = [v] := by
  unfold l2_norm normRow
  simp only [List.map_cons, List.map_nil]
  rw [h, if_pos one_pos]
  simp

theorem l2_norm_unit_row_noop_witness :
    rowNorm [(3 / 5 : ℝ), 4 / 5] = 1 ∧
    l2_norm [[(3 / 5 : ℝ), 4 / 5]] = [[(3 / 5 : ℝ), 4 / 5]] := by
  have h : rowNorm [(3 / 5 : ℝ), 4 / 5] = 1 := by
    unfold rowNorm
    rw [show ([(3 / 5 : ℝ), 4 / 5].map fun x => x ^ 2).sum = 1 by norm_num]
    exact Real.sqrt_one
  exact ⟨h, l2_norm_unit_row_noop _ h⟩

/-- Claim C8: `FaceEmbeddings::new` resolves a missing path argument to
the default relative path `./models/face_embeddings.tflite`, lets an
explicitly supplied path override that default, returns the loaded
session on success, and returns `ModelLoadError` (and hence no session)
when the file at the chosen path is missing or malformed. -/
theorem new_model_loading (fs : String → Option FlatBufferModel)
    (mp : Option String) :
    defaultModelPath = "./models/face_embeddings.tflite" ∧
    FaceEmbeddings.new fs mp =
      match fs (mp.getD defaultModelPath) with
      | some m => Except.ok { model_path := mp.getD defaultModelPath, model := m }
      | none => Except.error Err.ModelLoadError := by
  refine ⟨rfl, ?_⟩
  cases mp <;> rfl

/-- Claim C9: the embedding pipeline is deterministic across sessions:
two sessions constructed from the same filesystem and path hold equal
state, so `infer` on the same image and bounding box returns equal
results. -/
theorem infer_deterministic_across_sessions
    (fs : String → Option FlatBufferModel) (mp : Option String)
    (image : Mat) (bbox : BBox) (s1 s2 : FaceEmbeddings)
    (h1 : FaceEmbeddings.new fs mp = Except.ok s1)
    (h2 : FaceEmbeddings.new fs mp = Except.ok s2) :
    s1.infer image bbox = s2.infer image bbox := by
  rw [h1] at h2
  injection h2 with h
  rw [h]

theorem infer_deterministic_across_sessions_witness :
    FaceEmbeddings.new fsW (some "m.tflite") = Except.ok feW ∧
    feW.infer imgA bboxA = feW.infer imgA bboxA := by
  have h : FaceEmbeddings.new fsW (some "m.tflite") = Except.ok feW := rfl
  exact ⟨h, infer_deterministic_across_sessions fsW (some "m.tflite")
    imgA bboxA feW feW h h⟩

/-- Claim C10: when the loaded model reports at least one input tensor
and at least one output tensor and every tensor data read succeeds, the
three unconditional accesses in `infer` (input index 0, output index 0,
and the output data `unwrap`) cannot panic; a model that violates the
precondition (here: an empty input list) makes `infer` panic instead of
returning a typed error. -/
theorem infer_index_zero_panics (fe : FaceEmbeddings) (image : Mat)
    (bbox : BBox)
    (hin : fe.model.inputs ≠ []) (hout : fe.model.outputs ≠ [])
    (hread : ∀ buf i, fe.model.run buf i ≠ none) :
    (fe.infer image bbox ≠ Res.panicked PanicSite.indexInputs ∧
      fe.infer image bbox ≠ Res.panicked PanicSite.indexOutputs ∧
      fe.infer image bbox ≠ Res.panicked PanicSite.tensorDataUnwrap) ∧
    feNoInputs.infer imgA bboxA = Res.panicked PanicSite.indexInputs := by
  constructor
  · refine ⟨?_, ?_, ?_⟩ <;> intro heq <;>
      rcases infer_panic_sites fe image bbox _ heq with
        h | h | h | ⟨h, hc⟩ | ⟨h, hc⟩ | ⟨h, buf, i, hc⟩ <;>
      first
        | exact PanicSite.noConfusion h
        | exact hin hc
        | exact hout hc
        | exact hread buf i hc
  · exact infer_no_inputs feNoInputs imgA bboxA roiA rfl rfl crop_imgA
      (by decide) (by decide) rfl

theorem infer_index_zero_panics_witness :
    (fe4.model.inputs ≠ [] ∧ fe4.model.outputs ≠ []) ∧
    (fe4.infer imgA bboxA ≠ Res.panicked PanicSite.indexInputs ∧
      fe4.infer imgA bboxA ≠ Res.panicked PanicSite.indexOutputs ∧
      fe4.infer imgA bboxA ≠ Res.panicked PanicSite.tensorDataUnwrap) := by
  have hin : fe4.model.inputs ≠ [] := by simp [fe4, model4]
  have hout : fe4.model.outputs ≠ [] := by simp [fe4, model4]
  have hread : ∀ buf i, fe4.model.run buf i ≠ none := fun _ _ => by
    simp [fe4, model4]
  exact ⟨⟨hin, hout⟩,
    (infer_index_zero_panics fe4 imgA bboxA hin hout hread).1⟩

end RsFaceDetection
